import Mathlib

/-!
# Verification of the permit-portal discovery pipeline

Shallow embedding, in Lean 4, of the jurisdiction permit-portal resolution
system: URL classifier, offline detector, discovery tier controller,
automated verifier sweep, the human-review approve workflow and the
cron discovery worker.  JavaScript strings become `String`, nullable
values become `Option`, JS truthiness is modelled explicitly, numeric
confidences become exact rationals (`ℚ`), and the persistent store
becomes an explicit record of row lists threaded through each operation.
External collaborators (LLM oracle, liveness probes, DNS, page fetch)
are parameters of the embedded functions.  Timestamp columns, which no
verified property depends on, are omitted from the row models.
-/

namespace PermitGet

/-! ## JS-style string primitives -/

/-- Substring test on character lists, mirroring JS `String.prototype.includes`. -/
def hasSubL (pat : List Char) : List Char → Bool
  | [] => pat.isPrefixOf []
  | c :: t => pat.isPrefixOf (c :: t) || hasSubL pat t

/-- `s.includes(pat)` for strings. -/
def strIncludes (s pat : String) : Bool := hasSubL pat.data s.data

/-- `s.startsWith(pat)`. -/
def strStartsWith (s pat : String) : Bool := pat.data.isPrefixOf s.data

/-- `s.endsWith(pat)`. -/
def strEndsWith (s pat : String) : Bool := pat.data.isSuffixOf s.data

/-- `s.toLowerCase()` (character-wise lowering). -/
def lowerStr (s : String) : String := ⟨s.data.map Char.toLower⟩

/-- JS truthiness of a nullable string: `null`/`undefined` and `""` are falsy. -/
def truthy : Option String → Bool
  | some s => !s.isEmpty
  | none => false

/-- JS `o || d` for a nullable string with a string default. -/
def jsOr (o : Option String) (d : String) : String :=
  match o with
  | some s => if s.isEmpty then d else s
  | none => d

/-- JS `a || b` for two nullable strings. -/
def jsOrO (a b : Option String) : Option String :=
  if truthy a then a else b

/-! ## URL classifier (`lib/portalUtils.js`, first variant) -/

namespace PortalUtils

/-- The fixed vendor-fragment whitelist of `validateURL`
(`lib/portalUtils.js` lines 20–36). -/
def vendors : List String :=
  ["accela", "energov", "tylerhost", "tylertech", "tylerportico",
   "citizenserve", "etrakit", "opengov", "cityview", "mygovernmentonline",
   "permit", "viewpointcloud", "arcgis", "webgis", "gisweb"]

/-- `validateURL` (`lib/portalUtils.js` lines 10–45): accept `.gov` URLs and
URLs containing a known vendor fragment; reject everything else. -/
def validateURL (url : String) : Option String :=
  if url.isEmpty then none
  else if !strStartsWith url "http" then none
  else if !strIncludes url "." then none
  else
    let lower := lowerStr url
    if strEndsWith lower ".gov" then some url
    else if vendors.any (fun v => strIncludes lower v) then some url
    else none

/-- `detectVendor` (`lib/portalUtils.js` lines 51–94): ordered keyword match,
first match wins. -/
def detectVendor (url : String) : String :=
  if url.isEmpty then "unknown"
  else
    let lower := lowerStr url
    if strIncludes lower "accela" then "Accela"
    else if strIncludes lower "energov" || strIncludes lower "tylerhost" then "EnerGov"
    else if strIncludes lower "tylertech" then "TylerTech"
    else if strIncludes lower "tylerportico" then "TylerTech"
    else if strIncludes lower "etrakit" then "eTrakit"
    else if strIncludes lower "citizenserve" then "CitizenServe"
    else if strIncludes lower "opengov" then "OpenGov"
    else if strIncludes lower "mygovernmentonline" then "MyGovernmentOnline"
    else if strIncludes lower "permit" && strIncludes lower "eyes" then "PermitEyes"
    else if strIncludes lower "viewpointcloud" then "ViewPointCloud"
    else if strIncludes lower "cityview" || strIncludes lower "cvprodportal" then "CityView"
    else if strIncludes lower "arcgis" || strIncludes lower "webgis" || strIncludes lower "gisweb" then "ESRI-WebGIS"
    else if strEndsWith lower ".gov" then "municipal"
    else "unknown"

/-- The acceptance condition exactly as claim C3 words it: non-empty input,
a scheme at the front (the code's check that the string starts with `http`),
a dot somewhere, and either a `.gov` suffix or a fragment from the fixed
vendor whitelist. -/
def claimAccepts (url : String) : Bool :=
  !url.isEmpty && strStartsWith url "http" && strIncludes url "." &&
    (strEndsWith (lowerStr url) ".gov" ||
      vendors.any (fun v => strIncludes (lowerStr url) v))

/-! ### Minimal URL model for `normalizeTylerOAuth`

The source relies on the WHATWG `URL` class.  We embed the fragment of its
behaviour the code exercises: `scheme://host/path?query` URLs without
percent-encoding, userinfo, port or fragment parts.  `parseURL` returns
`none` where the modelled grammar does not apply (mirroring the `try/catch`
around `new URL`). -/

/-- Split a character list at the first occurrence of `c`; `none` when `c`
does not occur. -/
def splitFirst (c : Char) : List Char → Option (List Char × List Char)
  | [] => none
  | a :: t =>
    if a = c then some ([], t)
    else (splitFirst c t).map (fun p => (a :: p.1, p.2))

/-- Split a character list at every occurrence of `c`. -/
def splitAll (c : Char) : List Char → List (List Char)
  | [] => [[]]
  | a :: t =>
    if a = c then [] :: splitAll c t
    else
      match splitAll c t with
      | [] => [[a]]
      | h :: r => (a :: h) :: r

/-- Parse a query string into key/value pairs (`a=b&c=d`); a component
without `=` gets the empty value. -/
def parseQuery (s : List Char) : List (List Char × List Char) :=
  (splitAll '&' s).map fun kv =>
    match splitFirst '=' kv with
    | some p => p
    | none => (kv, [])

/-- Parse result of a URL: scheme, host, path (with leading slash) and
query pairs. -/
structure URLRec where
  scheme : List Char
  host : List Char
  path : List Char
  query : List (List Char × List Char)
deriving DecidableEq, Repr

/-- Parse `scheme://host/path?query`.  Returns `none` outside the modelled
grammar, as `new URL` throws on genuinely malformed input. -/
def parseURL (s : String) : Option URLRec :=
  match splitFirst ':' s.data with
  | none => none
  | some (scheme, rest) =>
    match rest with
    | '/' :: '/' :: rest2 =>
      (match splitFirst '/' rest2 with
       | none => none
       | some (host, pr) =>
         match splitFirst '?' ('/' :: pr) with
         | none => some ⟨scheme, host, '/' :: pr, []⟩
         | some (p, q) => some ⟨scheme, host, p, parseQuery q⟩)
    | _ => none

/-- `searchParams.get(name)`: value of the first query pair with the given
key, `null` when absent. -/
def getParam (u : URLRec) (name : List Char) : Option (List Char) :=
  (u.query.find? (fun kv => kv.1 == name)).map (·.2)

/-- `url.origin` of the modelled URL (`scheme://host`). -/
def origin (u : URLRec) : List Char :=
  u.scheme ++ ':' :: '/' :: '/' :: u.host

/-- The `pathname.replace` on the regex "slash-callback followed by anything,
case-insensitive": cut at the first case-insensitive occurrence of
`/callback` and terminate with a single slash; unchanged when the pattern
does not occur. -/
def replaceCallback : List Char → List Char
  | [] => []
  | a :: t =>
    if "/callback".data.isPrefixOf ((a :: t).map Char.toLower) then ['/']
    else a :: replaceCallback t

/-- `normalizeTylerOAuth` (`lib/portalUtils.js` lines 102–119): detect a
Tyler identity-provider OAuth URL, pull out `redirect_uri`, strip the
`/callback` suffix and return the underlying portal base. -/
def normalizeTylerOAuth (url : String) : Option String :=
  if !strIncludes url "identity.tylerportico.com" then none
  else
    match parseURL url with
    | none => none
    | some auth =>
      match getParam auth "redirect_uri".data with
      | none => none
      | some r =>
        match parseURL (String.mk r) with
        | none => none
        | some p => some (String.mk (origin p ++ replaceCallback p.path))

/-- The redirect-target shape of claim C7: the EnerGov self-service
callback URL followed by an arbitrary OAuth state query `s`. -/
def cbList (s : List Char) : List Char :=
  "https://x-energovpub.tylerhost.net/apps/selfservice/callback?".data ++ s

end PortalUtils

/-! ## Offline detector (`lib/offlineClassifier.js`, `part_000`) -/

namespace OfflineClassifier

/-- An extracted outbound link; the classifier inspects only the URL. -/
structure Link where
  url : String
deriving DecidableEq

/-- Verdict of the detector. -/
structure Verdict where
  isOffline : Bool
  confidence : ℚ
deriving DecidableEq

/-- Vendor-system URL fragments (a non-PDF link hitting one of these means
the jurisdiction is not offline-only). -/
def vendorPatterns : List String :=
  ["opengov", "permiteyes", "epermithub", "tylertech", "citytech",
   "mygovernmentonline", "smartgov", "permitcenter", "cloudpermit",
   "citizenserve"]

/-- Offline-language indicator phrases. -/
def offlineIndicators : List String :=
  ["pdf", "print", "mail", "fee schedule", "codes & compliance",
   "download", "forms", "applications", "permit packet", "return completed"]

/-- Online-submission indicator phrases. -/
def onlineIndicators : List String :=
  ["apply online", "submit online", "/login", "/account", "/application",
   "portal"]

/-- A link counts as a PDF link when its lowercased URL ends in `.pdf`. -/
def isPdfLink (l : Link) : Bool := strEndsWith (lowerStr l.url) ".pdf"

/-- `classifyOffline` (`part_000` lines 3–78). -/
def classifyOffline (content : String) (links : List Link) : Verdict :=
  if content.isEmpty then ⟨false, 0⟩
  else
    let text := lowerStr content
    let pdfLinks := links.filter isPdfLink
    let nonPdfLinks := links.filter (fun l => !isPdfLink l)
    if nonPdfLinks.any (fun l => vendorPatterns.any (fun v => strIncludes l.url v)) then
      ⟨false, 0⟩
    else
      let pdfRatio : ℚ :=
        (pdfLinks.length : ℚ) / (if links.length = 0 then 1 else (links.length : ℚ))
      let offlineHits := (offlineIndicators.filter (fun w => strIncludes text w)).length
      if onlineIndicators.any (fun w => strIncludes text w) then ⟨false, 0⟩
      else
        let score : ℚ :=
          (if pdfRatio > 1/2 then 2/5 else 0) +
          (if offlineHits > 2 then 2/5 else 0) +
          (if pdfRatio = 1 then 1/5 else 0) +
          (if nonPdfLinks.length = 0 then 1/5 else 0)
        ⟨decide ((1/2 : ℚ) ≤ score), score⟩

end OfflineClassifier

/-! ## Shared persistent-store row model -/

/-- A `jurisdictions` row (the fields this pipeline reads or writes). -/
structure Jurisdiction where
  geoid : String
  name : String := ""
  statefp : Option String := none
  portal_url : Option String := none
  submission_method : Option String := none
  requires_license : Option Bool := none
deriving DecidableEq

/-- A `jurisdiction_meta` row (timestamps omitted; `raw_ai_url` models
`raw_ai_output.url`). -/
structure MetaRow where
  id : Nat
  jurisdiction_geoid : String
  portal_url : Option String := none
  manual_info_url : Option String := none
  vendor_type : Option String := none
  submission_method : String := "unknown"
  license_required : Option Bool := none
  notes : Option String := none
  human_notes : Option String := none
  raw_ai_url : Option String := none
  verification_html_sample : Option String := none
  verified : Bool := false
  invalid : Bool := false
deriving DecidableEq

/-- A `portal_discovery_jobs` row. -/
structure Job where
  jurisdiction_geoid : String
  status : String
  attempts : Nat
deriving DecidableEq

/-- The persistent store: the three tables the verified operations touch. -/
structure DB where
  jurisdictions : List Jurisdiction := []
  meta : List MetaRow := []
  jobs : List Job := []
deriving DecidableEq

/-- How many records of a jurisdiction are simultaneously `verified=true`
and `invalid=false` (the quantity the single-verified-record invariant
bounds by one). -/
def countVerifiedValid (meta : List MetaRow) (g : String) : Nat :=
  (meta.filter (fun r => r.jurisdiction_geoid == g && r.verified && !r.invalid)).length

/-! ## Discovery tier controller (`part_002`, `lib/portalDiscoveryPipeline.js`)

The LLM oracle and the liveness/content probes are external collaborators;
they enter as fields of `Pipeline.Env`.  Within one run the oracle is
modelled as deterministic: `mini` is the result any cheap-tier query
returns, `full` the outcome of an expensive-tier query. -/

namespace Pipeline

/-- Oracle answer: `{url, confidence, notes}`. -/
structure OracleResult where
  url : Option String := none
  confidence : ℚ := 0
  notes : Option String := none
deriving DecidableEq

/-- Oracle failure, carrying the HTTP status and error code the `catch`
inspects. -/
structure OracleErr where
  status : Option Nat := none
  code : Option String := none
deriving DecidableEq

/-- `err.status === 429 || err.code === "insufficient_quota"`. -/
def isQuotaErr (e : OracleErr) : Bool :=
  e.status == some 429 || e.code == some "insufficient_quota"

/-- External collaborators of one pipeline run. -/
structure Env where
  mini : OracleResult
  full : Except OracleErr OracleResult
  alive : String → Bool
  looksPortal : String → Bool

/-- `runFullAI` (`part_002` lines 101–132): expensive-tier query; a 429 or
`insufficient_quota` failure silently falls back to a fresh cheap-tier
query.  The second component counts the extra cheap-tier calls made. -/
def runFullAI (env : Env) : Except OracleErr OracleResult × Nat :=
  match env.full with
  | .ok r => (.ok r, 0)
  | .error e => if isQuotaErr e then (.ok env.mini, 1) else (.error e, 0)

/-- `validateCandidate` (`part_002` lines 138–158): normalize Tyler OAuth
redirects, whitelist-validate, then probe liveness and page content. -/
def validateCandidate (env : Env) : Option String → Option String
  | none => none
  | some url =>
    if url.isEmpty then none
    else
      let url := match PortalUtils.normalizeTylerOAuth url with
        | some n => n
        | none => url
      match PortalUtils.validateURL url with
      | none => none
      | some validated =>
        if !env.alive validated then none
        else if !env.looksPortal validated then none
        else some validated

/-- The OAuth-redirect marker test `mini.url && mini.url.includes("authorize?")`. -/
def authorizeMarker : Option String → Bool
  | some s => !s.isEmpty && strIncludes s "authorize?"
  | none => false

/-- `needsEscalation` (`part_002` lines 216–219).  `mini.confidence || 0`
is just the confidence itself, since `ℚ` has no `NaN` and `0 || 0 = 0`. -/
def needsEscalation (env : Env) (candidate : Option String) : Bool :=
  candidate.isNone || decide (env.mini.confidence < 7/10) || authorizeMarker env.mini.url

/-- Fresh id for an inserted `jurisdiction_meta` row. -/
def nextMetaId (db : DB) : Nat := (db.meta.map (·.id)).foldr max 0 + 1

/-- `upsertMeta` (`part_002` lines 164–173): a POST to
`jurisdiction_meta?on_conflict=jurisdiction_geoid` — but with no
`Prefer: resolution=merge-duplicates` header, so the store performs a
plain insert.  When a row for the jurisdiction already exists (the
conflict target is a unique column) the insert is rejected with a
conflict error, which `lib/supabase.js`'s `sb` swallows; the existing row
is left unchanged.  Otherwise a fresh row is inserted. -/
def upsertMeta (db : DB) (geoid : String) (portal_url : Option String)
    (vendor_type : String) (notes : String) : DB :=
  if db.meta.any (fun r => r.jurisdiction_geoid == geoid) then
    db
  else
    { db with meta := db.meta ++ [{
        id := nextMetaId db
        jurisdiction_geoid := geoid
        portal_url := portal_url
        vendor_type := some vendor_type
        submission_method := if truthy portal_url then "online" else "unknown"
        license_required := if truthy portal_url then some true else none
        notes := some notes : MetaRow }] }

/-- A run's returned object (`src` models the extra `source` key the cache
branch adds). -/
structure RunResult where
  status : String
  portal_url : Option String
  vendor_type : String
  notes : String
  src : Option String := none
deriving DecidableEq

/-- Errors a run can throw. -/
inductive PipeErr where
  | missingGeoid : PipeErr
  | jurisdictionNotFound : String → PipeErr
  | oracle : OracleErr → PipeErr
deriving DecidableEq

/-- Observable outcome of one run: thrown error or result, the store after
the run, and how many cheap- and expensive-tier oracle calls were made. -/
structure RunOut where
  outcome : Except PipeErr RunResult
  db : DB
  miniCalls : Nat
  fullCalls : Nat

/-- Persist-and-return tail of the pipeline (`part_002` lines 232–265). -/
def finishRun (db : DB) (geoid : String) (candidate : Option String)
    (notes source : String) (miniCalls fullCalls : Nat) : RunOut :=
  match candidate with
  | none =>
    ⟨.ok { status := "none", portal_url := none, vendor_type := "unknown", notes := notes },
      upsertMeta db geoid none "unknown"
        (if notes.isEmpty then "No reliable portal identified" else notes),
      miniCalls, fullCalls⟩
  | some cand =>
    let vendor := PortalUtils.detectVendor cand
    ⟨.ok { status := source, portal_url := some cand, vendor_type := vendor, notes := notes },
      upsertMeta db geoid (some cand) vendor notes, miniCalls, fullCalls⟩

/-- `runPortalDiscovery` (`part_002` lines 179–265): guard, jurisdiction
lookup, cache check, cheap tier, escalation policy, expensive tier,
persist. -/
def runPortalDiscovery (env : Env) (db : DB) (geoid : String)
    (forceRefresh : Bool) : RunOut :=
  if geoid.isEmpty then ⟨.error .missingGeoid, db, 0, 0⟩
  else
    match db.jurisdictions.find? (fun j => j.geoid == geoid) with
    | none => ⟨.error (.jurisdictionNotFound geoid), db, 0, 0⟩
    | some _jur =>
      let cached : Option MetaRow :=
        if forceRefresh then none
        else
          match db.meta.find? (fun r => r.jurisdiction_geoid == geoid) with
          | some m => if truthy m.portal_url then some m else none
          | none => none
      match cached with
      | some m =>
        ⟨.ok { status := "cache", portal_url := m.portal_url,
               vendor_type := jsOr m.vendor_type "unknown",
               notes := jsOr m.notes "", src := some "cached" }, db, 0, 0⟩
      | none =>
        let mini := env.mini
        let candidate0 := validateCandidate env mini.url
        let notes0 := jsOr mini.notes ""
        let esc := needsEscalation env candidate0
        let fullCalls := if esc then 1 else 0
        let miniCalls := 1 + (if esc then (runFullAI env).2 else 0)
        if esc then
          match (runFullAI env).1 with
          | .error e => ⟨.error (.oracle e), db, miniCalls, fullCalls⟩
          | .ok full =>
            let fullCandidate := validateCandidate env full.url
            if fullCandidate.isSome && decide (mini.confidence ≤ full.confidence) then
              finishRun db geoid fullCandidate (jsOr full.notes notes0) "full" miniCalls fullCalls
            else
              finishRun db geoid candidate0 notes0 "mini" miniCalls fullCalls
        else
          finishRun db geoid candidate0 notes0 "mini" miniCalls fullCalls

/-- Substitute the Tyler OAuth normalization when it applies — the first
step of `validateCandidate`. -/
def normalizeApplied (u : String) : String :=
  match PortalUtils.normalizeTylerOAuth u with
  | some n => n
  | none => u

/-- Claim C2's escalation condition, following the claim's own wording:
the cheap candidate fails URL validation, or its liveness or content probe
fails, or its stated confidence is below 0.70, or the raw returned URL
carries the OAuth marker `authorize?`. -/
def escalationSpec (env : Env) : Prop :=
  (match env.mini.url with
   | none => True
   | some u =>
     PortalUtils.validateURL (normalizeApplied u) = none
       ∨ env.alive (normalizeApplied u) = false
       ∨ env.looksPortal (normalizeApplied u) = false)
  ∨ env.mini.confidence < 7/10
  ∨ (∃ u, env.mini.url = some u ∧ strIncludes u "authorize?" = true)

end Pipeline

/-! ## Cron discovery worker (`api/portal-discovery.js`, `part_019`/`part_017`)

One authorized cron invocation: check the per-day `portal_ai_usage`
counter, pick the next jurisdiction without a portal, make a single AI
call, insert a `jurisdiction_meta` row, bump the counter. -/

namespace CronDiscovery

/-- The worker's own vendor keyword list. -/
def vendorKeywords : List String :=
  ["accela", "energov", "etrakit", "citizenserve", "tylertech",
   "mygovernmentonline", "opengov", "viewpoint", "cityview"]

/-- The worker's `validateURL` (`part_019` lines 47–71): trim, require an
`http` start and a dot, accept `.gov` suffixes or vendor keywords. -/
def validateURL (url : Option String) : Option String :=
  match url with
  | none => none
  | some u =>
    if u.isEmpty then none
    else
      let trimmed := u.trim
      if !strStartsWith trimmed "http" then none
      else if !strIncludes trimmed "." then none
      else
        let lower := lowerStr trimmed
        if strEndsWith lower ".gov" then some trimmed
        else if vendorKeywords.any (fun v => strIncludes lower v) then some trimmed
        else none

/-- The worker's vendor map, in object-key insertion order: pairs of
(returned tag, matched keyword). -/
def vendorMap : List (String × String) :=
  [("accela", "accela"), ("enerGov", "energov"), ("eTrakit", "etrakit"),
   ("citizenserve", "citizenserve"), ("tyler", "tylertech"),
   ("myGOV", "mygovernmentonline"), ("opengov", "opengov"),
   ("viewpoint", "viewpoint"), ("cityview", "cityview")]

/-- The worker's `detectVendor` (`part_019` lines 73–95). -/
def detectVendor (url : Option String) : String :=
  match url with
  | none => "unknown"
  | some u =>
    if u.isEmpty then "unknown"
    else
      let lower := lowerStr u
      match vendorMap.find? (fun p => strIncludes lower p.2) with
      | some p => p.1
      | none => if strEndsWith lower ".gov" then "municipal" else "unknown"

/-- Parsed AI answer of `discoverPortalWithAI` (url may be absent when the
model returned non-JSON). -/
structure AiResult where
  url : Option String := none
  notes : String := ""
deriving DecidableEq

/-- State read and written by one cron invocation: today's usage-counter
row, the `jurisdictions_without_portals` queue, and the meta table. -/
structure CronState where
  usage : Option Nat := none
  pending : List Jurisdiction := []
  meta : List MetaRow := []
deriving DecidableEq

/-- The worker's HTTP response (authorized requests only). -/
inductive CronResp where
  | dailyLimitReached : Nat → Nat → CronResp
  | idle : CronResp
  | ok : String → Option String → String → CronResp
deriving DecidableEq

/-- The cron handler (`part_019` lines 177–260, identically `part_017`
lines 159–237): the last component counts AI oracle calls made. -/
def handler (limit : Nat) (ai : AiResult) (st : CronState) :
    CronResp × CronState × Nat :=
  let used := match st.usage with | some c => c | none => 0
  if limit ≤ used then (.dailyLimitReached used limit, st, 0)
  else
    match st.pending with
    | [] => (.idle, st, 0)
    | jur :: _ =>
      let validUrl := validateURL ai.url
      let vendor := detectVendor validUrl
      let newRow : MetaRow :=
        { id := (st.meta.map (·.id)).foldr max 0 + 1
          jurisdiction_geoid := jur.geoid
          portal_url := validUrl
          vendor_type := some vendor
          submission_method := if truthy validUrl then "online" else "unknown"
          license_required := some true
          notes := some ai.notes
          raw_ai_url := ai.url }
      let st' : CronState :=
        { st with
          meta := st.meta ++ [newRow]
          usage := some (match st.usage with | none => 1 | some _ => used + 1) }
      (.ok jur.geoid validUrl vendor, st', 1)

end CronDiscovery

/-! ## Automated verifier sweep (`api/portal-verifier.js`, `part_013`)

The handler's batch pull uses the query string
`jurisdiction_meta?portal_url=not.is.null&verified.is.false&limit=N`.
`verified.is.false` is not a PostgREST filter — the repo idiom everywhere
else is `column=op.value` (`id=eq.${id}`, `portal_url=not.is.null`), and
here the `=` is missing — so the store rejects the request, `part_013`'s
own `sb` helper (lines 30–33) throws on the non-OK response, and the
handler's `catch` answers 500 before any row is processed.  The check,
demote and requeue code below the pull is therefore unreachable; it is
still embedded, translated from the source, for completeness. -/

namespace Verifier

/-- External page-probing collaborators: DNS resolution and the page fetch
(`some html` when the response is 2xx with an HTML content type, `none`
otherwise — e.g. an HTTP 500, a non-HTML body, or a network error). -/
structure PageEnv where
  resolves : String → Bool
  fetchHtml : String → Option String

/-- Keywords the portal body must hit at least once. -/
def requiredKeywords : List String :=
  ["permit", "apply", "contractor", "citizen", "portal"]

/-- `detectVendorFromHTML` scans for these object keys, in insertion
order (note the loop tests the key, so `tylertech`, not `tyler`). -/
def htmlVendorKeys : List String :=
  ["accela", "energov", "etrakit", "citizenserve", "tylertech",
   "mygovernmentonline", "opengov", "viewpoint", "cityview"]

/-- `detectVendorFromURL`'s (tag, keyword) pairs, in insertion order. -/
def urlVendorPairs : List (String × String) :=
  [("accela", "accela"), ("energov", "energov"), ("etrakit", "etrakit"),
   ("citizenserve", "citizenserve"), ("tylertech", "tylertech"),
   ("mygovernmentonline", "mygovernmentonline"), ("opengov", "opengov"),
   ("viewpoint", "viewpoint"), ("cityview", "cityview")]

/-- `detectVendorFromURL` (`part_013` lines 108–131). -/
def detectVendorFromURL (url : String) : String :=
  if url.isEmpty then "unknown"
  else
    let lower := lowerStr url
    match urlVendorPairs.find? (fun p => strIncludes lower p.2) with
    | some p => p.1
    | none => if strEndsWith lower ".gov" then "municipal" else "unknown"

/-- `detectVendorFromHTML` (`part_013` lines 81–103). -/
def detectVendorFromHTML (html : String) (url : String) : String :=
  if html.isEmpty then detectVendorFromURL url
  else
    let lower := lowerStr html
    match htmlVendorKeys.find? (fun k => strIncludes lower k) with
    | some k => k
    | none => detectVendorFromURL url

/-- `markAsInvalid` (`part_013` lines 240–257): demote the row and append
one fresh pending discovery job for its jurisdiction. -/
def markAsInvalid (db : DB) (row : MetaRow) : DB :=
  { db with
    meta := db.meta.map (fun r =>
      if r.id == row.id then { r with verified := false, invalid := true } else r)
    jobs := db.jobs ++ [{ jurisdiction_geoid := row.jurisdiction_geoid,
                          status := "pending", attempts := 0 }] }

/-- One iteration of the sweep loop (`part_013` lines 163–220): DNS check,
fetch check, keyword check, then mark verified with the vendor re-detected
from the body and a 2000-character audit snippet. -/
def processRow (env : PageEnv) (db : DB) (row : MetaRow) : DB :=
  let portal := row.portal_url.getD ""
  if !env.resolves portal then markAsInvalid db row
  else
    match env.fetchHtml portal with
    | none => markAsInvalid db row
    | some rawHtml =>
      let html := lowerStr rawHtml
      let hits := requiredKeywords.filter (fun k => strIncludes html k)
      if hits.length = 0 then markAsInvalid db row
      else
        let vendor := detectVendorFromHTML html portal
        { db with meta := db.meta.map (fun r =>
            if r.id == row.id then
              { r with
                verified := true
                vendor_type := some vendor
                verification_html_sample := some (String.mk (html.data.take 2000)) }
            else r) }

/-- The handler's HTTP-level answers: the catch-all 500, the empty-batch
idle answer, and a completed scan of `n` rows. -/
inductive SweepResp where
  | internalError : SweepResp
  | idle : SweepResp
  | completed : Nat → SweepResp
deriving DecidableEq

/-- The batch pull (`part_013` lines 153–155).  Its query string,
`jurisdiction_meta?portal_url=not.is.null&verified.is.false&limit=N`,
carries the malformed filter `verified.is.false` (the `=` of the
`column=op.value` idiom is missing), so the store rejects the request and
`sb` (`part_013` lines 30–33) throws on the non-OK response instead of
returning rows — for every store contents and batch limit. -/
def batchPull (_db : DB) (_batchLimit : Nat) : Except String (List MetaRow) :=
  .error "Supabase Error: malformed filter verified.is.false"

/-- One verifier sweep (`part_013` lines 136–235): the batch pull throws,
the handler's `catch` answers 500 and the store is untouched.  The scan
loop over the pulled rows (reachable only if the pull succeeded) is kept
as the translation of the unreachable handler body. -/
def sweep (env : PageEnv) (batchLimit : Nat) (db : DB) : SweepResp × DB :=
  match batchPull db batchLimit with
  | .error _ => (.internalError, db)
  | .ok rows =>
    if rows.isEmpty then (.idle, db)
    else (.completed rows.length, rows.foldl (processRow env) db)

end Verifier

/-! ## Human-review approve (`api/dashboard/review/approve.js`, `part_007`) -/

namespace Review

/-- First truthy value of a list of nullable strings (a JS `a || b || null`
chain). -/
def firstTruthy : List (Option String) → Option String
  | [] => none
  | o :: t => if truthy o then o else firstTruthy t

/-- Value of the JS expression `s && s.trim()` on a nullable string. -/
def andTrim : Option String → Option String
  | some s => if s.isEmpty then some s else some s.trim
  | none => none

/-- Request body of the approve endpoint. -/
structure ApproveBody where
  id : Option Nat := none
  portal_url : Option String := none
  manual_info_url : Option String := none
  human_notes : Option String := none
deriving DecidableEq

/-- Responses of the approve endpoint. -/
inductive ApproveResp where
  | badRequest : String → ApproveResp
  | notFound : ApproveResp
  | ok : Nat → String → Option String → Option String → ApproveResp
deriving DecidableEq

/-- The approve handler (`part_007` lines 4–126): compute the canonical
URL, update the jurisdiction row, mark this meta row verified, and mark
every other meta row of the same jurisdiction invalid. -/
def approve (body : ApproveBody) (db : DB) : ApproveResp × DB :=
  match body.id with
  | none => (.badRequest "Missing id", db)
  | some id =>
    match db.meta.find? (fun r => r.id == id) with
    | none => (.notFound, db)
    | some jm =>
      let aiUrl := firstTruthy [jm.portal_url, jm.raw_ai_url]
      let finalPortalUrl := firstTruthy [andTrim body.portal_url, aiUrl]
      let finalManualInfoUrl :=
        if truthy (andTrim body.manual_info_url) then andTrim body.manual_info_url
        else firstTruthy [jm.manual_info_url]
      let finalHumanNotes := firstTruthy [andTrim body.human_notes, jm.human_notes]
      let hasPortal := truthy finalPortalUrl
      let hasManualInfo := truthy finalManualInfoUrl
      let jurisdictions' :=
        if hasPortal then
          db.jurisdictions.map (fun j =>
            if j.geoid == jm.jurisdiction_geoid then
              { j with portal_url := finalPortalUrl
                       submission_method := some "online"
                       requires_license := jm.license_required }
            else j)
        else if hasManualInfo then
          db.jurisdictions.map (fun j =>
            if j.geoid == jm.jurisdiction_geoid then
              { j with portal_url := none
                       submission_method := some "offline_only"
                       requires_license := jm.license_required }
            else j)
        else db.jurisdictions
      let meta' := db.meta.map (fun r =>
        if r.id == id then
          { r with
            portal_url := if hasPortal then finalPortalUrl else none
            manual_info_url := finalManualInfoUrl
            human_notes := finalHumanNotes
            verified := true
            invalid := false }
        else if r.jurisdiction_geoid == jm.jurisdiction_geoid then
          { r with invalid := true }
        else r)
      (.ok id jm.jurisdiction_geoid finalPortalUrl finalManualInfoUrl,
       { db with jurisdictions := jurisdictions', meta := meta' })

end Review

/-! ## Helper lemmas -/

/-- A non-empty pattern does not occur in the empty string. -/
theorem strIncludes_empty_left (pat : String) (h : pat.data ≠ []) :
    strIncludes "" pat = false := by
  simp only [strIncludes, hasSubL]
  cases hd : pat.data with
  | nil => exact absurd hd h
  | cons a t => simp [List.isPrefixOf]

/-- `lowerStr` of the empty string is empty. -/
theorem lowerStr_empty : lowerStr "" = "" := rfl

/-- `splitFirst` cuts at the first occurrence of the separator. -/
theorem splitFirst_append (c : Char) (l r : List Char) (h : c ∉ l) :
    PortalUtils.splitFirst c (l ++ c :: r) = some (l, r) := by
  induction l with
  | nil => simp [PortalUtils.splitFirst]
  | cons a t ih =>
    have ha : a ≠ c := fun e => h (e ▸ List.mem_cons_self a t)
    have ht : c ∉ t := fun e => h (List.mem_cons_of_mem a e)
    simp [PortalUtils.splitFirst, ha, ih ht]

/-- Parsing the claim's redirect target: scheme `https`, the EnerGov
self-service host, the `/callback` path, and whatever query followed. -/
theorem parseURL_cbList (s : List Char) :
    PortalUtils.parseURL (String.mk (PortalUtils.cbList s)) =
      some ⟨"https".data, "x-energovpub.tylerhost.net".data,
            "/apps/selfservice/callback".data, PortalUtils.parseQuery s⟩ := by
  have h1 : (String.mk (PortalUtils.cbList s)).data =
      "https".data ++ ':' :: ('/' :: '/' ::
        ("x-energovpub.tylerhost.net".data ++ '/' ::
          ("apps/selfservice/callback".data ++ '?' :: s))) := rfl
  have e1 := splitFirst_append ':' "https".data
    ('/' :: '/' :: ("x-energovpub.tylerhost.net".data ++ '/' ::
      ("apps/selfservice/callback".data ++ '?' :: s))) (by decide)
  have e2 := splitFirst_append '/' "x-energovpub.tylerhost.net".data
    ("apps/selfservice/callback".data ++ '?' :: s) (by decide)
  have e3 : PortalUtils.splitFirst '?'
      ('/' :: ("apps/selfservice/callback".data ++ '?' :: s)) =
      some ("/apps/selfservice/callback".data, s) :=
    splitFirst_append '?' "/apps/selfservice/callback".data s (by decide)
  unfold PortalUtils.parseURL
  rw [h1, e1]
  simp only [e2, e3]

/-- `validateURL` as one conditional: accept exactly the `claimAccepts`
inputs, and return the input itself. -/
theorem validateURL_ite (url : String) :
    PortalUtils.validateURL url =
      (if PortalUtils.claimAccepts url then some url else none) := by
  unfold PortalUtils.validateURL PortalUtils.claimAccepts
  by_cases h1 : url.isEmpty <;>
    by_cases h2 : strStartsWith url "http" <;>
      by_cases h3 : strIncludes url "." <;>
        by_cases h4 : strEndsWith (lowerStr url) ".gov" <;>
          by_cases h5 : PortalUtils.vendors.any (fun v => strIncludes (lowerStr url) v) <;>
            simp [h1, h2, h3, h4, h5]

/-- `validateURL` returns its own argument when it accepts. -/
theorem validateURL_eq_some (u v : String)
    (h : PortalUtils.validateURL u = some v) : v = u := by
  rw [validateURL_ite] at h
  by_cases hc : PortalUtils.claimAccepts u <;> simp [hc] at h
  exact h.symm

/-- `validateCandidate` rejects a present URL exactly when whitelist
validation of the (normalization-adjusted) URL fails or one of the two
probes fails. -/
theorem validateCandidate_some_none_iff (env : Pipeline.Env) (u : String) :
    Pipeline.validateCandidate env (some u) = none ↔
      (PortalUtils.validateURL (Pipeline.normalizeApplied u) = none
        ∨ env.alive (Pipeline.normalizeApplied u) = false
        ∨ env.looksPortal (Pipeline.normalizeApplied u) = false) := by
  by_cases hue : u.isEmpty
  · rw [String.isEmpty_iff] at hue
    subst hue
    have hl : Pipeline.validateCandidate env (some "") = none := rfl
    have hr : PortalUtils.validateURL (Pipeline.normalizeApplied "") = none := rfl
    exact ⟨fun _ => Or.inl hr, fun _ => hl⟩
  · simp only [Pipeline.validateCandidate, hue, if_false]
    have hnorm : (match PortalUtils.normalizeTylerOAuth u with
        | some n => n | none => u) = Pipeline.normalizeApplied u := rfl
    rw [hnorm]
    cases hv : PortalUtils.validateURL (Pipeline.normalizeApplied u) with
    | none => simp
    | some v =>
      have hvu : v = Pipeline.normalizeApplied u := validateURL_eq_some _ _ hv
      subst hvu
      by_cases ha : env.alive (Pipeline.normalizeApplied u) <;>
        by_cases hl : env.looksPortal (Pipeline.normalizeApplied u) <;>
          simp_all

/-- The code's escalation test coincides with the claim's four-way
disjunction. -/
theorem needsEscalation_iff_spec (env : Pipeline.Env) :
    Pipeline.needsEscalation env (Pipeline.validateCandidate env env.mini.url) = true
      ↔ Pipeline.escalationSpec env := by
  unfold Pipeline.needsEscalation Pipeline.escalationSpec Pipeline.authorizeMarker
  cases hu : env.mini.url with
  | none =>
    constructor
    · intro _
      exact Or.inl trivial
    · intro _
      simp [Pipeline.validateCandidate]
  | some u =>
    rw [Bool.or_eq_true, Bool.or_eq_true, Bool.and_eq_true, Bool.not_eq_true',
      decide_eq_true_eq, Option.isNone_iff_eq_none, validateCandidate_some_none_iff]
    constructor
    · rintro ((h | h) | ⟨hne, hmk⟩)
      · exact Or.inl h
      · exact Or.inr (Or.inl h)
      · exact Or.inr (Or.inr ⟨u, rfl, hmk⟩)
    · rintro (h | h | ⟨u', hu', hmk⟩)
      · exact Or.inl (Or.inl h)
      · exact Or.inl (Or.inr h)
      · cases hu'
        refine Or.inr ⟨?_, hmk⟩
        by_contra hne
        rw [Bool.not_eq_false, String.isEmpty_iff] at hne
        subst hne
        rw [show strIncludes "" "authorize?" = false from rfl] at hmk
        cases hmk

/-- `finishRun` reports the call counters it is handed. -/
theorem finishRun_fullCalls (db : DB) (g : String) (c : Option String)
    (n s : String) (mc fc : Nat) :
    (Pipeline.finishRun db g c n s mc fc).fullCalls = fc := by
  unfold Pipeline.finishRun
  cases c <;> rfl

/-- `finishRun` always returns a non-error outcome. -/
theorem finishRun_outcome_ok (db : DB) (g : String) (c : Option String)
    (n s : String) (mc fc : Nat) :
    ∃ r, (Pipeline.finishRun db g c n s mc fc).outcome = .ok r := by
  unfold Pipeline.finishRun
  cases c <;> exact ⟨_, rfl⟩

/-- An escalating non-cached run consults the expensive tier exactly once;
a non-escalating one never does. -/
theorem run_fullCalls (env : Pipeline.Env) (db : DB) (geoid : String)
    (j : Jurisdiction)
    (hg : geoid.isEmpty = false)
    (hj : db.jurisdictions.find? (fun x => x.geoid == geoid) = some j) :
    (Pipeline.runPortalDiscovery env db geoid true).fullCalls =
      if Pipeline.needsEscalation env (Pipeline.validateCandidate env env.mini.url)
      then 1 else 0 := by
  unfold Pipeline.runPortalDiscovery
  rw [if_neg (by simp [hg])]
  rw [hj]
  simp only [if_true, ite_true]
  by_cases hesc : Pipeline.needsEscalation env (Pipeline.validateCandidate env env.mini.url)
  · simp only [hesc, if_true, ite_true]
    split
    · rfl
    · split <;> rw [finishRun_fullCalls]
  · simp only [hesc, Bool.false_eq_true, if_false, ite_false, finishRun_fullCalls]

/-- `finishRun`'s outcome does not depend on the call counters. -/
theorem finishRun_outcome_eq (db : DB) (g : String) (c : Option String)
    (n s : String) (mc fc mc' fc' : Nat) :
    (Pipeline.finishRun db g c n s mc fc).outcome =
      (Pipeline.finishRun db g c n s mc' fc').outcome := by
  unfold Pipeline.finishRun
  cases c <;> rfl

/-- `finishRun`'s resulting store does not depend on the call counters. -/
theorem finishRun_db_eq (db : DB) (g : String) (c : Option String)
    (n s : String) (mc fc mc' fc' : Nat) :
    (Pipeline.finishRun db g c n s mc fc).db =
      (Pipeline.finishRun db g c n s mc' fc').db := by
  unfold Pipeline.finishRun
  cases c <;> rfl

/-- Shape of an escalating forced run: everything after the expensive-tier
call. -/
theorem run_escalated (env : Pipeline.Env) (db : DB) (geoid : String)
    (j : Jurisdiction)
    (hg : geoid.isEmpty = false)
    (hj : db.jurisdictions.find? (fun x => x.geoid == geoid) = some j)
    (hesc : Pipeline.needsEscalation env
      (Pipeline.validateCandidate env env.mini.url) = true) :
    Pipeline.runPortalDiscovery env db geoid true =
      (match (Pipeline.runFullAI env).1 with
       | .error e =>
         ⟨.error (.oracle e), db, 1 + (Pipeline.runFullAI env).2, 1⟩
       | .ok full =>
         if (Pipeline.validateCandidate env full.url).isSome
             && decide (env.mini.confidence ≤ full.confidence) then
           Pipeline.finishRun db geoid (Pipeline.validateCandidate env full.url)
             (jsOr full.notes (jsOr env.mini.notes "")) "full"
             (1 + (Pipeline.runFullAI env).2) 1
         else
           Pipeline.finishRun db geoid (Pipeline.validateCandidate env env.mini.url)
             (jsOr env.mini.notes "") "mini" (1 + (Pipeline.runFullAI env).2) 1) := by
  unfold Pipeline.runPortalDiscovery
  rw [if_neg (by simp [hg]), hj]
  simp only [if_true, ite_true, hesc]

/-- A filter whose members all share one key has at most one element when
the keys are duplicate-free. -/
theorem filter_const_key_len_le_one {α : Type} (g : α → Nat) (c : Nat)
    (p : α → Bool) :
    ∀ l : List α, (l.map g).Nodup → (∀ x ∈ l, p x = true → g x = c) →
      (l.filter p).length ≤ 1 := by
  intro l
  induction l with
  | nil => intro _ _; simp
  | cons a t ih =>
    intro hnd hp
    rw [List.map_cons, List.nodup_cons] at hnd
    by_cases hpa : p a = true
    · rw [List.filter_cons_of_pos hpa]
      have ht : t.filter p = [] := by
        rw [List.filter_eq_nil_iff]
        intro x hx hpx
        have hgx : g x = c := hp x (List.mem_cons_of_mem a hx) hpx
        have hga : g a = c := hp a (List.mem_cons_self a t) hpa
        exact hnd.1 (by
          rw [hga.trans hgx.symm]
          exact List.mem_map_of_mem g hx)
      rw [ht]
      simp
    · rw [List.filter_cons_of_neg (by simpa using hpa)]
      exact ih hnd.2 (fun x hx => hp x (List.mem_cons_of_mem a hx))

/-- The id-keyed patch pattern of the approve handler (mark row `id`, mark
every other row of jurisdiction `g` invalid) enforces the at-most-one
verified-and-valid bound whatever the row updates `A` and `B` otherwise
write. -/
theorem approve_map_invariant (l : List MetaRow) (id : Nat) (g : String)
    (A B : MetaRow → MetaRow)
    (hAid : ∀ r, (A r).id = r.id)
    (hAv : ∀ r, (A r).verified = true)
    (hAi : ∀ r, (A r).invalid = false)
    (hBid : ∀ r, (B r).id = r.id)
    (hBi : ∀ r, (B r).invalid = true)
    (hnd : (l.map (·.id)).Nodup) :
    (∀ row ∈ l.map (fun r => if r.id == id then A r
        else if r.jurisdiction_geoid == g then B r else r),
      row.id = id → row.verified = true ∧ row.invalid = false)
    ∧ (∀ row ∈ l.map (fun r => if r.id == id then A r
        else if r.jurisdiction_geoid == g then B r else r),
      row.jurisdiction_geoid = g → row.id ≠ id → row.invalid = true)
    ∧ countVerifiedValid (l.map (fun r => if r.id == id then A r
        else if r.jurisdiction_geoid == g then B r else r)) g ≤ 1 := by
  set f : MetaRow → MetaRow := fun r => if r.id == id then A r
    else if r.jurisdiction_geoid == g then B r else r with hf
  have hcases : ∀ r, (r.id = id ∧ f r = A r)
      ∨ (r.id ≠ id ∧ r.jurisdiction_geoid = g ∧ f r = B r)
      ∨ (r.id ≠ id ∧ r.jurisdiction_geoid ≠ g ∧ f r = r) := by
    intro r
    by_cases h1 : r.id = id
    · exact Or.inl ⟨h1, by simp [hf, h1]⟩
    · by_cases h2 : r.jurisdiction_geoid = g
      · exact Or.inr (Or.inl ⟨h1, h2, by simp [hf, h1, h2]⟩)
      · exact Or.inr (Or.inr ⟨h1, h2, by simp [hf, h1, h2]⟩)
  have hone : ∀ row ∈ l.map f, row.id = id →
      row.verified = true ∧ row.invalid = false := by
    intro row hrow hid
    obtain ⟨r, hr, hfr⟩ := List.mem_map.mp hrow
    rcases hcases r with ⟨h1, he⟩ | ⟨h1, h2, he⟩ | ⟨h1, h2, he⟩
    · rw [← hfr, he]
      exact ⟨hAv r, hAi r⟩
    · rw [← hfr, he] at hid
      rw [hBid r] at hid
      exact absurd hid h1
    · rw [← hfr, he] at hid
      exact absurd hid h1
  have hothers : ∀ row ∈ l.map f, row.jurisdiction_geoid = g →
      row.id ≠ id → row.invalid = true := by
    intro row hrow hg hid
    obtain ⟨r, hr, hfr⟩ := List.mem_map.mp hrow
    rcases hcases r with ⟨h1, he⟩ | ⟨h1, h2, he⟩ | ⟨h1, h2, he⟩
    · rw [← hfr, he, hAid r] at hid
      exact absurd h1 hid
    · rw [← hfr, he]
      exact hBi r
    · rw [← hfr, he] at hg
      exact absurd hg h2
  refine ⟨hone, hothers, ?_⟩
  unfold countVerifiedValid
  refine filter_const_key_len_le_one (·.id) id _ (l.map f) ?_ ?_
  · have : (l.map f).map (·.id) = l.map (·.id) := by
      rw [List.map_map]
      refine List.map_congr_left ?_
      intro r _
      rcases hcases r with ⟨h1, he⟩ | ⟨_, _, he⟩ | ⟨_, _, he⟩ <;>
        simp [Function.comp, he, hAid, hBid]
    rw [this]
    exact hnd
  · intro row hrow hp
    rw [Bool.and_eq_true, Bool.and_eq_true, Bool.not_eq_true',
      beq_iff_eq] at hp
    by_contra hid
    have := hothers row hrow hp.1.1 hid
    rw [hp.2] at this
    cases this

/-! ## Claim theorems -/

/-- C3: `validateURL` accepts an input (returns the URL rather than `null`)
if and only if the input is non-empty, begins with the `http` scheme
marker, contains a dot, and either has a `.gov` suffix or matches one of
the fixed closed vendor-fragment whitelist; every other input is mapped to
`null`. -/
theorem validateURL_accepts_iff (url : String) :
    PortalUtils.validateURL url =
      (if PortalUtils.claimAccepts url then some url else none) :=
  validateURL_ite url

/-- C8 counterexample: a URL containing both an EnerGov marker and a
TylerTech marker, but also the higher-precedence `accela` marker, is
classified `Accela`, not `EnerGov`. -/
theorem detectVendor_both_markers_counterexample :
    strIncludes (lowerStr "https://accela.energov.tylertech.com") "energov" = true
    ∧ strIncludes (lowerStr "https://accela.energov.tylertech.com") "tylertech" = true
    ∧ PortalUtils.detectVendor "https://accela.energov.tylertech.com" = "Accela"
    ∧ "Accela" ≠ "EnerGov" := by decide

/-- C8 (amended): for every URL containing an EnerGov/Tyler-host marker
and not containing the higher-precedence `accela` marker, `detectVendor`
returns `EnerGov` — in particular never the generic `TylerTech`, whatever
TylerTech markers the URL also contains. -/
theorem detectVendor_energov_precedence (url : String)
    (hmark : strIncludes (lowerStr url) "energov" = true
      ∨ strIncludes (lowerStr url) "tylerhost" = true)
    (haccela : strIncludes (lowerStr url) "accela" = false) :
    PortalUtils.detectVendor url = "EnerGov" := by
  have hne : url.isEmpty = false := by
    by_contra h
    rw [Bool.not_eq_false, String.isEmpty_iff] at h
    subst h
    rcases hmark with h | h <;> simp [lowerStr_empty] at h <;>
      rw [strIncludes_empty_left] at h <;> simp_all
  unfold PortalUtils.detectVendor
  rcases hmark with h | h <;> simp [hne, haccela, h]

/-- C8 amended-theorem witness at a Tyler-hosted EnerGov URL also carrying
a `tylertech` marker. -/
theorem detectVendor_energov_precedence_witness :
    PortalUtils.detectVendor "https://x.energov.tylertech.com" = "EnerGov" :=
  detectVendor_energov_precedence "https://x.energov.tylertech.com"
    (Or.inl (by decide)) (by decide)

/-- Evaluation of `classifyOffline` on a non-empty, all-PDF link set with
at least 3 offline phrases and no online phrase (shared by the C6
theorems). -/
theorem classifyOffline_all_pdf_aux (content : String)
    (links : List OfflineClassifier.Link)
    (hne : links ≠ [])
    (hpdf : ∀ l ∈ links, OfflineClassifier.isPdfLink l = true)
    (hhits : 3 ≤ (OfflineClassifier.offlineIndicators.filter
        (fun w => strIncludes (lowerStr content) w)).length)
    (honline : ∀ w ∈ OfflineClassifier.onlineIndicators,
        strIncludes (lowerStr content) w = false) :
    OfflineClassifier.classifyOffline content links =
      ⟨true, (2/5 : ℚ) + 2/5 + 1/5 + 1/5⟩ := by
  have hc : content.isEmpty = false := by
    by_contra h
    rw [Bool.not_eq_false, String.isEmpty_iff] at h
    subst h
    revert hhits
    decide
  have hfilter : links.filter OfflineClassifier.isPdfLink = links :=
    List.filter_eq_self.mpr (by simpa using hpdf)
  have hnonpdf : links.filter (fun l => !OfflineClassifier.isPdfLink l) = [] := by
    rw [List.filter_eq_nil_iff]
    intro a ha
    simp [hpdf a ha]
  have hlen : (links.length : ℚ) ≠ 0 := by
    simpa using (List.length_pos.mpr hne).ne'
  have hlz : ¬ links.length = 0 := by
    simpa using (List.length_pos.mpr hne).ne'
  have hany : OfflineClassifier.onlineIndicators.any
      (fun w => strIncludes (lowerStr content) w) = false := by
    rw [List.any_eq_false]
    intro w hw
    simp [honline w hw]
  unfold OfflineClassifier.classifyOffline
  rw [if_neg (by simp [hc])]
  rw [hfilter, hnonpdf]
  simp only [List.any_nil, Bool.false_eq_true, if_false]
  rw [if_neg hlz, hany]
  simp only [Bool.false_eq_true, if_false]
  have hratio : (links.length : ℚ) / (links.length : ℚ) = 1 := div_self hlen
  rw [hratio]
  have h2 : 2 < (OfflineClassifier.offlineIndicators.filter
      (fun w => strIncludes (lowerStr content) w)).length := by omega
  rw [if_pos (show (1 : ℚ) > 1/2 by norm_num), if_pos h2, if_pos rfl]
  simp only [List.length_nil, if_pos rfl, OfflineClassifier.Verdict.mk.injEq]
  refine ⟨?_, rfl⟩
  rw [decide_eq_true_eq]
  norm_num

/-- C6 counterexample: an input meeting every condition of the claim (a
non-empty, 100% PDF link set, at least 3 offline phrases, no online
phrase, no vendor link) on which the detector's confidence is the sum
0.4+0.4+0.2+0.2 = 1.2, not the 1.0 the claim computes. -/
theorem classifyOffline_score_counterexample :
    ([⟨"a.pdf"⟩] : List OfflineClassifier.Link) ≠ []
    ∧ (∀ l ∈ ([⟨"a.pdf"⟩] : List OfflineClassifier.Link),
        OfflineClassifier.isPdfLink l = true)
    ∧ 3 ≤ (OfflineClassifier.offlineIndicators.filter
        (fun w => strIncludes (lowerStr "pdf print mail forms") w)).length
    ∧ (∀ w ∈ OfflineClassifier.onlineIndicators,
        strIncludes (lowerStr "pdf print mail forms") w = false)
    ∧ (∀ l ∈ ([⟨"a.pdf"⟩] : List OfflineClassifier.Link),
        ∀ v ∈ OfflineClassifier.vendorPatterns, strIncludes l.url v = false)
    ∧ (OfflineClassifier.classifyOffline "pdf print mail forms" [⟨"a.pdf"⟩]).isOffline = true
    ∧ (OfflineClassifier.classifyOffline "pdf print mail forms" [⟨"a.pdf"⟩]).confidence = 6/5
    ∧ ((6 : ℚ)/5 ≠ 1) := by
  have h := classifyOffline_all_pdf_aux "pdf print mail forms" [⟨"a.pdf"⟩]
    (by decide) (by decide) (by decide) (by decide)
  refine ⟨by decide, by decide, by decide, by decide, by decide, ?_, ?_, by norm_num⟩
  · rw [h]
  · rw [h]; norm_num

/-- C6 (amended): for every input whose link set is non-empty and 100% PDF
links, whose page text contains at least 3 offline-language phrases and no
online-submission phrase, and which has no vendor-system link, the
detector returns offline with confidence ≥ 0.5, the score being
0.4+0.4+0.2+0.2 = 1.2 (pdfRatio = 1 and no non-PDF links). -/
theorem classifyOffline_all_pdf_offline (content : String)
    (links : List OfflineClassifier.Link)
    (hne : links ≠ [])
    (hpdf : ∀ l ∈ links, OfflineClassifier.isPdfLink l = true)
    (hhits : 3 ≤ (OfflineClassifier.offlineIndicators.filter
        (fun w => strIncludes (lowerStr content) w)).length)
    (honline : ∀ w ∈ OfflineClassifier.onlineIndicators,
        strIncludes (lowerStr content) w = false)
    (_hvendor : ∀ l ∈ links, ∀ v ∈ OfflineClassifier.vendorPatterns,
        strIncludes l.url v = false) :
    OfflineClassifier.classifyOffline content links =
      ⟨true, (2/5 : ℚ) + 2/5 + 1/5 + 1/5⟩
    ∧ ((1/2 : ℚ) ≤ (OfflineClassifier.classifyOffline content links).confidence) := by
  have h := classifyOffline_all_pdf_aux content links hne hpdf hhits honline
  exact ⟨h, by rw [h]; norm_num⟩

/-- C7: every URL of the Tyler identity family (the code's family test is
the `identity.tylerportico.com` substring) carrying a `redirect_uri`
parameter of the form `https://x-energovpub.tylerhost.net/apps/selfservice/callback?...`
normalizes to exactly `https://x-energovpub.tylerhost.net/apps/selfservice/`;
a URL outside the family, or one lacking a `redirect_uri` parameter,
normalizes to `null`. -/
theorem tyler_oauth_normalization
    (url : String) (auth : PortalUtils.URLRec) (s : List Char)
    (u2 u3 : String) (a3 : PortalUtils.URLRec)
    (hmark : strIncludes url "identity.tylerportico.com" = true)
    (hparse : PortalUtils.parseURL url = some auth)
    (hred : PortalUtils.getParam auth "redirect_uri".data = some (PortalUtils.cbList s))
    (hu2 : strIncludes u2 "identity.tylerportico.com" = false)
    (hu3parse : PortalUtils.parseURL u3 = some a3)
    (hu3red : PortalUtils.getParam a3 "redirect_uri".data = none) :
    PortalUtils.normalizeTylerOAuth url =
      some "https://x-energovpub.tylerhost.net/apps/selfservice/"
    ∧ PortalUtils.normalizeTylerOAuth u2 = none
    ∧ PortalUtils.normalizeTylerOAuth u3 = none := by
  refine ⟨?_, ?_, ?_⟩
  · unfold PortalUtils.normalizeTylerOAuth
    rw [hmark]
    simp only [Bool.not_true, Bool.false_eq_true, if_false, hparse, hred, parseURL_cbList]
    rfl
  · unfold PortalUtils.normalizeTylerOAuth
    rw [hu2]
    simp
  · unfold PortalUtils.normalizeTylerOAuth
    cases hm : strIncludes u3 "identity.tylerportico.com" with
    | false => simp
    | true => simp only [Bool.not_true, Bool.false_eq_true, if_false, hu3parse, hu3red]

/-- C7 witness: the normalization at a concrete Tyler OAuth URL (with an
extra `client_id` parameter), a concrete foreign URL, and a concrete
family URL lacking `redirect_uri`. -/
theorem tyler_oauth_normalization_witness :
    PortalUtils.normalizeTylerOAuth
        "https://identity.tylerportico.com/oauth2/authorize?client_id=1&redirect_uri=https://x-energovpub.tylerhost.net/apps/selfservice/callback?foo=bar" =
      some "https://x-energovpub.tylerhost.net/apps/selfservice/"
    ∧ PortalUtils.normalizeTylerOAuth "https://example.com/x?redirect_uri=https://a.b/c" = none
    ∧ PortalUtils.normalizeTylerOAuth "https://identity.tylerportico.com/login?foo=1" = none :=
  tyler_oauth_normalization
    "https://identity.tylerportico.com/oauth2/authorize?client_id=1&redirect_uri=https://x-energovpub.tylerhost.net/apps/selfservice/callback?foo=bar"
    ⟨"https".data, "identity.tylerportico.com".data, "/oauth2/authorize".data,
      [("client_id".data, "1".data),
       ("redirect_uri".data, PortalUtils.cbList "foo=bar".data)]⟩
    "foo=bar".data
    "https://example.com/x?redirect_uri=https://a.b/c"
    "https://identity.tylerportico.com/login?foo=1"
    ⟨"https".data, "identity.tylerportico.com".data, "/login".data,
      [("foo".data, "1".data)]⟩
    (by decide) (by decide) (by decide) (by decide) (by decide) (by decide)

/-- C2: after the cheap-tier query of a (forced, i.e. cache-bypassing) run,
the expensive tier is consulted if and only if the cheap candidate fails
URL validation, or its liveness or content probe fails, or its stated
confidence is below 0.70, or the raw returned URL contains the OAuth
marker `authorize?`. -/
theorem escalation_policy_iff (env : Pipeline.Env) (db : DB) (geoid : String)
    (j : Jurisdiction)
    (hg : geoid.isEmpty = false)
    (hj : db.jurisdictions.find? (fun x => x.geoid == geoid) = some j) :
    (Pipeline.runPortalDiscovery env db geoid true).fullCalls = 1
      ↔ Pipeline.escalationSpec env := by
  rw [run_fullCalls env db geoid j hg hj, ← needsEscalation_iff_spec env]
  by_cases hesc : Pipeline.needsEscalation env
      (Pipeline.validateCandidate env env.mini.url) <;> simp [hesc]

/-- C2 witness: a valid, live, portal-looking cheap result with confidence
0.65 escalates; one with confidence 0.95 and passing probes (and no OAuth
marker) does not. -/
theorem escalation_policy_iff_witness :
    (Pipeline.runPortalDiscovery
        ⟨⟨some "https://permits.example.gov", 13/20, none⟩, .ok ⟨none, 0, none⟩,
          fun _ => true, fun _ => true⟩
        { jurisdictions := [{ geoid := "g1" }] } "g1" true).fullCalls = 1
    ∧ ¬ ((Pipeline.runPortalDiscovery
        ⟨⟨some "https://permits.example.gov", 19/20, none⟩, .ok ⟨none, 0, none⟩,
          fun _ => true, fun _ => true⟩
        { jurisdictions := [{ geoid := "g1" }] } "g1" true).fullCalls = 1) := by
  constructor
  · exact (escalation_policy_iff _ _ _ { geoid := "g1" } (by decide) (by rfl)).mpr
      (Or.inr (Or.inl (by norm_num)))
  · intro h
    rcases (escalation_policy_iff _ _ _ { geoid := "g1" } (by decide) (by rfl)).mp h with
      (hbad | hbad | ⟨u, hu, hmk⟩)
    · rcases hbad with hbad | hbad | hbad
      · exact absurd hbad (by decide)
      · exact absurd hbad (by decide)
      · exact absurd hbad (by decide)
    · exact absurd hbad (by norm_num)
    · cases hu
      exact absurd hmk (by decide)

/-- C9: a `forceRefresh=false` run for a jurisdiction whose stored record
already has a (truthy) non-null `portal_url` returns the cached result,
writes nothing and makes no oracle call — so a second identical run
returns the identical result with zero additional oracle calls and zero
writes. -/
theorem cached_run_idempotent (env : Pipeline.Env) (db : DB) (geoid : String)
    (j : Jurisdiction) (m : MetaRow)
    (hg : geoid.isEmpty = false)
    (hj : db.jurisdictions.find? (fun x => x.geoid == geoid) = some j)
    (hm : db.meta.find? (fun r => r.jurisdiction_geoid == geoid) = some m)
    (hp : truthy m.portal_url = true) :
    Pipeline.runPortalDiscovery env db geoid false =
      ⟨.ok { status := "cache", portal_url := m.portal_url,
             vendor_type := jsOr m.vendor_type "unknown",
             notes := jsOr m.notes "", src := some "cached" }, db, 0, 0⟩
    ∧ Pipeline.runPortalDiscovery env
        (Pipeline.runPortalDiscovery env db geoid false).db geoid false =
      Pipeline.runPortalDiscovery env db geoid false := by
  have h1 : Pipeline.runPortalDiscovery env db geoid false =
      ⟨.ok { status := "cache", portal_url := m.portal_url,
             vendor_type := jsOr m.vendor_type "unknown",
             notes := jsOr m.notes "", src := some "cached" }, db, 0, 0⟩ := by
    unfold Pipeline.runPortalDiscovery
    rw [if_neg (by simp [hg]), hj]
    simp only [Bool.false_eq_true, if_false, ite_false, hm, hp, if_true, ite_true]
  exact ⟨h1, by rw [h1]; exact h1⟩

/-- C9 witness on a concrete cached jurisdiction. -/
theorem cached_run_idempotent_witness :
    Pipeline.runPortalDiscovery
        ⟨⟨none, 0, none⟩, .ok ⟨none, 0, none⟩, fun _ => true, fun _ => true⟩
        { jurisdictions := [{ geoid := "g1" }]
          meta := [{ id := 1, jurisdiction_geoid := "g1",
                     portal_url := some "https://permits.example.gov",
                     vendor_type := some "municipal", notes := some "ok" }] }
        "g1" false =
      ⟨.ok { status := "cache", portal_url := some "https://permits.example.gov",
             vendor_type := "municipal", notes := "ok", src := some "cached" },
        { jurisdictions := [{ geoid := "g1" }]
          meta := [{ id := 1, jurisdiction_geoid := "g1",
                     portal_url := some "https://permits.example.gov",
                     vendor_type := some "municipal", notes := some "ok" }] }, 0, 0⟩ :=
  (cached_run_idempotent _ _ _ { geoid := "g1" }
    { id := 1, jurisdiction_geoid := "g1",
      portal_url := some "https://permits.example.gov",
      vendor_type := some "municipal", notes := some "ok" }
    (by decide) (by rfl) (by rfl) (by decide)).1

/-- C10: in an escalating run, a rate-limit/quota failure of the expensive
tier does not fail the run — outcome and store are those of a run whose
expensive tier answered with the cheap tier's result — while any other
oracle failure aborts the run with no store modification. -/
theorem oracle_error_semantics (env : Pipeline.Env) (db : DB) (geoid : String)
    (j : Jurisdiction) (e : Pipeline.OracleErr)
    (hg : geoid.isEmpty = false)
    (hj : db.jurisdictions.find? (fun x => x.geoid == geoid) = some j)
    (hesc : Pipeline.needsEscalation env
      (Pipeline.validateCandidate env env.mini.url) = true)
    (hfull : env.full = .error e) :
    (Pipeline.isQuotaErr e = true →
      (∃ r, (Pipeline.runPortalDiscovery env db geoid true).outcome = .ok r)
      ∧ (Pipeline.runPortalDiscovery env db geoid true).outcome =
          (Pipeline.runPortalDiscovery { env with full := .ok env.mini }
            db geoid true).outcome
      ∧ (Pipeline.runPortalDiscovery env db geoid true).db =
          (Pipeline.runPortalDiscovery { env with full := .ok env.mini }
            db geoid true).db)
    ∧ (Pipeline.isQuotaErr e = false →
      (Pipeline.runPortalDiscovery env db geoid true).outcome = .error (.oracle e)
      ∧ (Pipeline.runPortalDiscovery env db geoid true).db = db) := by
  constructor
  · intro hq
    have hrf : Pipeline.runFullAI env = (.ok env.mini, 1) := by
      simp [Pipeline.runFullAI, hfull, hq]
    have hrf' : Pipeline.runFullAI { env with full := .ok env.mini } =
        (.ok env.mini, 0) := rfl
    have hesc' : Pipeline.needsEscalation { env with full := .ok env.mini }
        (Pipeline.validateCandidate { env with full := .ok env.mini }
          ({ env with full := .ok env.mini } : Pipeline.Env).mini.url) = true := hesc
    rw [run_escalated env db geoid j hg hj hesc,
      run_escalated { env with full := .ok env.mini } db geoid j hg hj hesc']
    rw [hrf, hrf']
    by_cases hacc : ((Pipeline.validateCandidate env env.mini.url).isSome
        && decide (env.mini.confidence ≤ env.mini.confidence)) = true
    · have hacc2 : ((Pipeline.validateCandidate { env with full := .ok env.mini }
          env.mini.url).isSome
          && decide (env.mini.confidence ≤ env.mini.confidence)) = true := hacc
      simp only [hacc, hacc2, if_true, ite_true]
      exact ⟨finishRun_outcome_ok _ _ _ _ _ _ _,
        finishRun_outcome_eq _ _ _ _ _ _ _ _ _, finishRun_db_eq _ _ _ _ _ _ _ _ _⟩
    · have hacc2 : ¬ ((Pipeline.validateCandidate { env with full := .ok env.mini }
          env.mini.url).isSome
          && decide (env.mini.confidence ≤ env.mini.confidence)) = true := hacc
      simp only [if_neg hacc, if_neg hacc2]
      exact ⟨finishRun_outcome_ok _ _ _ _ _ _ _,
        finishRun_outcome_eq _ _ _ _ _ _ _ _ _, finishRun_db_eq _ _ _ _ _ _ _ _ _⟩
  · intro hq
    have hrf : Pipeline.runFullAI env = (.error e, 0) := by
      simp [Pipeline.runFullAI, hfull, hq]
    rw [run_escalated env db geoid j hg hj hesc, hrf]
    exact ⟨rfl, rfl⟩

/-- C10 witness: a quota error (HTTP 429) falls back without failing; a
non-quota error (HTTP 500) aborts with the store untouched. -/
theorem oracle_error_semantics_witness :
    ((∃ r, (Pipeline.runPortalDiscovery
        ⟨⟨none, 0, none⟩, .error ⟨some 429, none⟩, fun _ => true, fun _ => true⟩
        { jurisdictions := [{ geoid := "g1" }] } "g1" true).outcome = .ok r))
    ∧ (Pipeline.runPortalDiscovery
        ⟨⟨none, 0, none⟩, .error ⟨some 500, none⟩, fun _ => true, fun _ => true⟩
        { jurisdictions := [{ geoid := "g1" }] } "g1" true).outcome =
      .error (.oracle ⟨some 500, none⟩)
    ∧ (Pipeline.runPortalDiscovery
        ⟨⟨none, 0, none⟩, .error ⟨some 500, none⟩, fun _ => true, fun _ => true⟩
        { jurisdictions := [{ geoid := "g1" }] } "g1" true).db =
      { jurisdictions := [{ geoid := "g1" }] } := by
  refine ⟨?_, ?_, ?_⟩
  · exact ((oracle_error_semantics _ _ _ { geoid := "g1" } ⟨some 429, none⟩
      (by decide) (by rfl) (by decide) (by rfl)).1 (by decide)).1
  · exact ((oracle_error_semantics _ _ _ { geoid := "g1" } ⟨some 500, none⟩
      (by decide) (by rfl) (by decide) (by rfl)).2 (by decide)).1
  · exact ((oracle_error_semantics _ _ _ { geoid := "g1" } ⟨some 500, none⟩
      (by decide) (by rfl) (by decide) (by rfl)).2 (by decide)).2

/-- C1: evaluation of the Automated Verifier sweep at the failing input —
a store holding one verified-and-valid record and one unverified record
with a live, keyword-bearing portal for jurisdiction `g1`.  The claim
says the sweep, like Approve, marks the passing record verified and
concurrently marks every other record of the jurisdiction invalid; the
code's sweep throws on its malformed batch query and answers 500 with the
store untouched, marking nothing verified and nothing invalid (only the
Approve handler, `approve_enforces_single_verified` below, enforces the
invariant). -/
theorem verifier_sweep_no_enforcement :
    Verifier.sweep ⟨fun _ => true, fun _ => some "permit portal apply"⟩ 10
        { meta := [{ id := 1, jurisdiction_geoid := "g1",
                     portal_url := some "https://a.example.gov", verified := true },
                   { id := 2, jurisdiction_geoid := "g1",
                     portal_url := some "https://b.example.gov" }] } =
      (.internalError,
       { meta := [{ id := 1, jurisdiction_geoid := "g1",
                    portal_url := some "https://a.example.gov", verified := true },
                  { id := 2, jurisdiction_geoid := "g1",
                    portal_url := some "https://b.example.gov" }] })
    ∧ countVerifiedValid
        [{ id := 1, jurisdiction_geoid := "g1",
           portal_url := some "https://a.example.gov", verified := true },
         { id := 2, jurisdiction_geoid := "g1",
           portal_url := some "https://b.example.gov" }] "g1" = 1 :=
  ⟨rfl, rfl⟩

/-- The approve-side half of the single-verified-record invariant
(`part_007`): Approve marks the approved record verified and every other
record of the jurisdiction invalid, so afterwards at most one record of
that jurisdiction is `verified=true ∧ invalid=false` (given
duplicate-free row ids). -/
theorem approve_enforces_single_verified (body : Review.ApproveBody) (db : DB)
    (id : Nat) (jm : MetaRow)
    (hid : body.id = some id)
    (hfind : db.meta.find? (fun r => r.id == id) = some jm)
    (hnd : (db.meta.map (·.id)).Nodup) :
    (∀ row ∈ (Review.approve body db).2.meta, row.id = id →
        row.verified = true ∧ row.invalid = false)
    ∧ (∀ row ∈ (Review.approve body db).2.meta,
        row.jurisdiction_geoid = jm.jurisdiction_geoid → row.id ≠ id →
          row.invalid = true)
    ∧ countVerifiedValid (Review.approve body db).2.meta
        jm.jurisdiction_geoid ≤ 1 := by
  simp only [Review.approve, hid, hfind]
  exact approve_map_invariant db.meta id jm.jurisdiction_geoid _ _
    (fun r => rfl) (fun r => rfl) (fun r => rfl) (fun r => rfl) (fun r => rfl) hnd

/-- Concrete instance of the approve-side enforcement: approving record 1
of jurisdiction `g1` verifies it and invalidates record 2. -/
theorem approve_enforces_single_verified_witness :
    (∀ row ∈ (Review.approve ⟨some 1, none, none, none⟩
        { meta := [{ id := 1, jurisdiction_geoid := "g1",
                     raw_ai_url := some "https://a.example.gov" },
                   { id := 2, jurisdiction_geoid := "g1",
                     verified := true }] }).2.meta,
      row.id = 1 → row.verified = true ∧ row.invalid = false)
    ∧ (∀ row ∈ (Review.approve ⟨some 1, none, none, none⟩
        { meta := [{ id := 1, jurisdiction_geoid := "g1",
                     raw_ai_url := some "https://a.example.gov" },
                   { id := 2, jurisdiction_geoid := "g1",
                     verified := true }] }).2.meta,
      row.jurisdiction_geoid = "g1" → row.id ≠ 1 → row.invalid = true)
    ∧ countVerifiedValid (Review.approve ⟨some 1, none, none, none⟩
        { meta := [{ id := 1, jurisdiction_geoid := "g1",
                     raw_ai_url := some "https://a.example.gov" },
                   { id := 2, jurisdiction_geoid := "g1",
                     verified := true }] }).2.meta "g1" ≤ 1 :=
  approve_enforces_single_verified ⟨some 1, none, none, none⟩
    { meta := [{ id := 1, jurisdiction_geoid := "g1",
                 raw_ai_url := some "https://a.example.gov" },
               { id := 2, jurisdiction_geoid := "g1", verified := true }] }
    1 { id := 1, jurisdiction_geoid := "g1",
        raw_ai_url := some "https://a.example.gov" }
    rfl (by rfl) (by decide)

/-- C4 counterexample: with the daily counter at the limit and a pending
jurisdiction available, the discovery worker produces no cheap-tier result
at all — it makes zero oracle calls, writes nothing, and answers
`daily_limit_reached`, contradicting the claim that only the
expensive-tier escalation is skipped. -/
theorem daily_limit_counterexample :
    CronDiscovery.handler 25 ⟨some "https://permits.example.gov", "found it"⟩
        ⟨some 25, [{ geoid := "g1" }], []⟩ =
      (.dailyLimitReached 25 25, ⟨some 25, [{ geoid := "g1" }], []⟩, 0) := rfl

/-- C4 (amended): once the per-day AI usage counter has reached the daily
limit, the discovery worker skips the whole AI discovery run — no oracle
call (cheap tier included) is made, no record is written, the state is
unchanged, and the handler reports `daily_limit_reached`. -/
theorem daily_limit_skips_whole_run (limit : Nat) (ai : CronDiscovery.AiResult)
    (st : CronDiscovery.CronState)
    (h : limit ≤ (match st.usage with | some c => c | none => 0)) :
    CronDiscovery.handler limit ai st =
      (.dailyLimitReached (match st.usage with | some c => c | none => 0) limit,
        st, 0) := by
  unfold CronDiscovery.handler
  rw [if_pos h]

/-- C4 amended-theorem witness with the counter beyond the limit. -/
theorem daily_limit_skips_whole_run_witness :
    CronDiscovery.handler 25 ⟨some "https://x.gov", "n"⟩ ⟨some 30, [{ geoid := "g2" }], []⟩ =
      (.dailyLimitReached 30 25, ⟨some 30, [{ geoid := "g2" }], []⟩, 0) :=
  daily_limit_skips_whole_run 25 ⟨some "https://x.gov", "n"⟩
    ⟨some 30, [{ geoid := "g2" }], []⟩ (by decide)

/-- C5: what one Automated Verifier sweep actually does — for every store
contents, batch limit and probe environment it answers the catch-all 500
and leaves every record and the job queue unchanged, because its batch
pull's malformed `verified.is.false` filter makes the store request throw
before any row is checked.  In particular a previously verified record
whose portal now returns HTTP 500 is neither marked invalid nor requeued,
and no pending DiscoveryJob is ever created. -/
theorem verifier_sweep_inert (env : Verifier.PageEnv) (lim : Nat) (db : DB) :
    Verifier.sweep env lim db = (.internalError, db) := rfl

/-- C6 amended-theorem witness on a concrete all-PDF page. -/
theorem classifyOffline_all_pdf_offline_witness :
    OfflineClassifier.classifyOffline "permit packet forms: print and mail" [⟨"b.pdf"⟩] =
      ⟨true, (2/5 : ℚ) + 2/5 + 1/5 + 1/5⟩
    ∧ ((1/2 : ℚ) ≤ (OfflineClassifier.classifyOffline
        "permit packet forms: print and mail" [⟨"b.pdf"⟩]).confidence) :=
  classifyOffline_all_pdf_offline "permit packet forms: print and mail" [⟨"b.pdf"⟩]
    (by decide) (by decide) (by decide) (by decide) (by decide)

end PermitGet
